import Mathlib

/-!
Verification of the serial-protocol core of the safety-io-tester-gui
repository: the controller simulator (`mock_serial_port.py`) and the
host-side protocol driver (`model.py`).

The Python code is shallowly embedded: byte strings become `List Char`
(the frames are pure ASCII), the simulator's mutable object state becomes
explicit state passing over `SimState`, `threading.Timer` callbacks become
an explicit list of pending `Timer` records consumed by a timed step
relation, and Python exceptions (`SerialException`, `IndexError`,
`ValueError`) become an explicit exceptional result constructor carrying
the state as it was at the raise point.
-/

namespace SafetyTester

/-- Python-style result of a stateful operation: either a normal result or
an uncaught exception together with the object state at the raise point
(in Python, mutations made before a raise persist on the object). -/
inductive POut (α : Type) where
  | ok : α → POut α
  | exn : String → α → POut α
deriving DecidableEq, Repr

/-- Result of a pure (driver-side) computation that may raise. -/
inductive PRes (α : Type) where
  | ok : α → PRes α
  | exn : String → PRes α
deriving DecidableEq, Repr

/-- The state a `POut` leaves behind, whether it returned or raised. -/
def stateOf {α : Type} : POut α → α
  | .ok s => s
  | .exn _ s => s

/-- `s[i]` on a Python string: `some` character, or `none` for the
`IndexError` case. -/
def pyGet (s : List Char) (i : Nat) : Option Char :=
  s.get? i

/-- `s[a:b]` on a Python string (slices never raise). -/
def pySlice (s : List Char) (a b : Nat) : List Char :=
  (s.drop a).take (b - a)

/-- The whitespace characters relevant to `str.strip()` for this protocol. -/
def isPySpace (c : Char) : Bool :=
  c = ' ' || c = '\n' || c = '\t' || c = '\r'

/-- Python `str.strip()`: remove whitespace from both ends. -/
def pyStrip (s : List Char) : List Char :=
  ((s.dropWhile isPySpace).reverse.dropWhile isPySpace).reverse

/-- Value of an ASCII digit character. -/
def digitVal (c : Char) : Option Nat :=
  if c.isDigit then some (c.toNat - 48) else none

/-- Accumulating decimal parse of a digit string. -/
def parseDigits : List Char → Nat → Option Nat
  | [], acc => some acc
  | c :: rest, acc =>
    match digitVal c with
    | some d => parseDigits rest (acc * 10 + d)
    | none => none

/-- Python `int(s)`: strip, optional sign, then a nonempty digit string;
`none` models `ValueError`. -/
def pyInt (s : List Char) : Option Int :=
  match pyStrip s with
  | [] => none
  | '-' :: rest =>
    if rest = [] then none else (parseDigits rest 0).map (fun n => -(n : Int))
  | '+' :: rest =>
    if rest = [] then none else (parseDigits rest 0).map (fun n => (n : Int))
  | l => (parseDigits l 0).map (fun n => (n : Int))

/-- `str(int(b))` for a Python bool: `'1'` or `'0'`. -/
def boolChar (b : Bool) : Char :=
  if b then '1' else '0'

/-- One dual-channel signal: `(channel A, channel B)`. -/
structure ChanPair where
  a : Bool
  b : Bool
deriving DecidableEq, Repr

/-- The eight dual-channel pin signals of the controller
(the `_pin_states` dictionary). -/
structure PinStates where
  mode1 : ChanPair
  mode2 : ChanPair
  estop : ChanPair
  interlock : ChanPair
  stop : ChanPair
  teach : ChanPair
  heartbeat : ChanPair
  power : ChanPair
deriving DecidableEq, Repr

/-- Which signal a pending delayed transition targets. -/
inductive SignalKind where
  | estop
  | interlock
deriving DecidableEq, Repr

/-- A pending `threading.Timer` created by a delayed E-Stop/Interlock
command: it will set `channel` of `sig` to `newValue` once the wall clock
reaches `fireAt` (milliseconds; `Int` because `int()` can parse a sign). -/
structure Timer where
  sig : SignalKind
  channel : Char
  newValue : Bool
  fireAt : Int
deriving DecidableEq, Repr

/-- State of the `MockSerialPort` simulator object, plus the list of
pending timers and a wall clock (ms) used by the timed step relation. -/
structure SimState where
  isOpen : Bool
  expectOk : Bool
  readRequested : Bool
  heartbeatRequested : Bool
  pins : PinStates
  timers : List Timer
  clock : Int
deriving DecidableEq, Repr

/-- `MockSerialPort.__init__`: default pin states, closed port, no
pending requests or timers. -/
def initState : SimState :=
  { isOpen := false
    expectOk := false
    readRequested := false
    heartbeatRequested := false
    pins :=
      { mode1 := ⟨false, true⟩
        mode2 := ⟨true, false⟩
        estop := ⟨true, true⟩
        interlock := ⟨true, true⟩
        stop := ⟨true, true⟩
        teach := ⟨false, false⟩
        heartbeat := ⟨false, false⟩
        power := ⟨true, true⟩ }
    timers := []
    clock := 0 }

/-- `_update_stop_pin_state`: `stop := estop` on both channels. -/
def update_stop_pin_state (s : SimState) : SimState :=
  { s with pins := { s.pins with stop := ⟨s.pins.estop.a, s.pins.estop.b⟩ } }

/-- `_set_mode_from_serial_data`: `mode1 := (data[1]=='1', data[3]=='1')`,
then `mode2 := (data[2]=='1', data[4]=='1')`; an index out of range raises
with only the mutations made so far. -/
def set_mode_from_serial_data (ser_data : List Char) (s : SimState) : POut SimState :=
  match pyGet ser_data 1, pyGet ser_data 3 with
  | some c1, some c3 =>
    let s1 := { s with pins := { s.pins with mode1 := ⟨c1 == '1', c3 == '1'⟩ } }
    match pyGet ser_data 2, pyGet ser_data 4 with
    | some c2, some c4 =>
      .ok { s1 with pins := { s1.pins with mode2 := ⟨c2 == '1', c4 == '1'⟩ } }
    | _, _ => .exn "IndexError" s1
  | _, _ => .exn "IndexError" s

/-- `_set_estop_from_serial_data`. A 3-char frame sets both channels at
once; a 9-char frame sets the `str_data[3]` channel immediately and starts
a timer that will set the other channel to its commanded value after
`int(str_data[4:9])` milliseconds; anything else raises `SerialException`.
Every non-raising path ends with `_update_stop_pin_state`.
(The reads of `ser_data[1]`/`ser_data[2]` are hoisted to the top of each
length branch: the guard `len(strip(ser_data)) = 3` (resp. `9`) forces
`ser_data` to have at least 3 (resp. 9) characters, so the hoisted reads
cannot fail where Python would have performed them and the observable
behaviour is unchanged.) -/
def set_estop_from_serial_data (ser_data : List Char) (now : Int) (s : SimState) :
    POut SimState :=
  let str_data := pyStrip ser_data
  if str_data.length = 3 then
    match pyGet ser_data 1, pyGet ser_data 2 with
    | some c1, some c2 =>
      .ok (update_stop_pin_state
        { s with pins := { s.pins with estop := ⟨c1 == '1', c2 == '1'⟩ } })
    | _, _ => .exn "IndexError" s
  else if str_data.length = 9 then
    match pyGet str_data 3 with
    | none => .exn "IndexError" s
    | some fc =>
      match pyInt (pySlice str_data 4 9) with
      | none => .exn "ValueError" s
      | some delay_ms =>
        match pyGet ser_data 1, pyGet ser_data 2 with
        | some c1, some c2 =>
          if fc = 'A' then
            let s1 := { s with pins := { s.pins with estop := ⟨c1 == '1', s.pins.estop.b⟩ },
                               timers := s.timers ++
                                 [⟨SignalKind.estop, 'B', c2 == '1', now + delay_ms⟩] }
            .ok (update_stop_pin_state s1)
          else if fc = 'B' then
            let s1 := { s with pins := { s.pins with estop := ⟨s.pins.estop.a, c2 == '1'⟩ },
                               timers := s.timers ++
                                 [⟨SignalKind.estop, 'A', c1 == '1', now + delay_ms⟩] }
            .ok (update_stop_pin_state s1)
          else .exn "SerialException" s
        | _, _ => .exn "IndexError" s
  else .exn "SerialException" s

/-- `_process_estop_delay` (the timer callback): set one channel of
`estop`, then re-derive `stop`. -/
def process_estop_delay (channel : Char) (state : Bool) (s : SimState) : SimState :=
  let s1 :=
    if channel = 'A' then { s with pins := { s.pins with estop := ⟨state, s.pins.estop.b⟩ } }
    else if channel = 'B' then
      { s with pins := { s.pins with estop := ⟨s.pins.estop.a, state⟩ } }
    else s
  update_stop_pin_state s1

/-- `_set_interlock_from_serial_data`: same shape as the E-Stop setter but
targeting `interlock` and never touching `stop`. -/
def set_interlock_from_serial_data (ser_data : List Char) (now : Int) (s : SimState) :
    POut SimState :=
  let str_data := pyStrip ser_data
  if str_data.length = 3 then
    match pyGet ser_data 1, pyGet ser_data 2 with
    | some c1, some c2 =>
      .ok { s with pins := { s.pins with interlock := ⟨c1 == '1', c2 == '1'⟩ } }
    | _, _ => .exn "IndexError" s
  else if str_data.length = 9 then
    match pyGet str_data 3 with
    | none => .exn "IndexError" s
    | some fc =>
      match pyInt (pySlice str_data 4 9) with
      | none => .exn "ValueError" s
      | some delay_ms =>
        match pyGet ser_data 1, pyGet ser_data 2 with
        | some c1, some c2 =>
          if fc = 'A' then
            .ok { s with pins := { s.pins with interlock := ⟨c1 == '1', s.pins.interlock.b⟩ },
                         timers := s.timers ++
                           [⟨SignalKind.interlock, 'B', c2 == '1', now + delay_ms⟩] }
          else if fc = 'B' then
            .ok { s with pins := { s.pins with interlock := ⟨s.pins.interlock.a, c2 == '1'⟩ },
                         timers := s.timers ++
                           [⟨SignalKind.interlock, 'A', c1 == '1', now + delay_ms⟩] }
          else .exn "SerialException" s
        | _, _ => .exn "IndexError" s
  else .exn "SerialException" s

/-- `_process_interlock_delay` (the timer callback): set one channel of
`interlock`; `stop` is not re-derived here. -/
def process_interlock_delay (channel : Char) (state : Bool) (s : SimState) : SimState :=
  if channel = 'A' then
    { s with pins := { s.pins with interlock := ⟨state, s.pins.interlock.b⟩ } }
  else if channel = 'B' then
    { s with pins := { s.pins with interlock := ⟨s.pins.interlock.a, state⟩ } }
  else s

/-- `_set_power_from_serial_data`: both power channels take `data[1]=='1'`. -/
def set_power_from_serial_data (ser_data : List Char) (s : SimState) : POut SimState :=
  match pyGet ser_data 1 with
  | some c1 => .ok { s with pins := { s.pins with power := ⟨c1 == '1', c1 == '1'⟩ } }
  | none => .exn "IndexError" s

/-- Set `_expect_ok` after a successfully processed set-command (`write`
sets it only when the handler returned without raising). -/
def expectOkAfter : POut SimState → POut SimState
  | .ok s => .ok { s with expectOk := true }
  | .exn m s => .exn m s

/-- `MockSerialPort.write`: dispatch on the first character of the
stripped data; unknown commands are echoed to stdout and raise. -/
def simWrite (data : List Char) (now : Int) (s : SimState) : POut SimState :=
  if s.isOpen = false then .exn "SerialException" s
  else
    match pyGet (pyStrip data) 0 with
    | none => .exn "IndexError" s
    | some c =>
      if c = 'R' then .ok { s with readRequested := true }
      else if c = 'H' then .ok { s with heartbeatRequested := true }
      else if c = 'M' then expectOkAfter (set_mode_from_serial_data data s)
      else if c = 'E' then expectOkAfter (set_estop_from_serial_data data now s)
      else if c = 'I' then expectOkAfter (set_interlock_from_serial_data data now s)
      else if c = 'P' then expectOkAfter (set_power_from_serial_data data s)
      else if c = 'S' then .ok { s with expectOk := true }
      else .exn "SerialException" s

/-- `_encode_pin_states`, pure part: the 19-byte Status frame
`'A'` + 8 bits + `'B'` + 8 bits + newline built from a pin snapshot. -/
def encode_pin_states (p : PinStates) : List Char :=
  ['A', boolChar p.mode1.a, boolChar p.mode2.a, boolChar p.estop.a, boolChar p.interlock.a,
   boolChar p.stop.a, boolChar p.teach.a, boolChar p.heartbeat.a, boolChar p.power.a,
   'B', boolChar p.mode1.b, boolChar p.mode2.b, boolChar p.estop.b, boolChar p.interlock.b,
   boolChar p.stop.b, boolChar p.teach.b, boolChar p.heartbeat.b, boolChar p.power.b, '\n']

/-- Five zero-padded decimal digits, exactly as the driver computes them:
`str(n // 10000 % 10) ... str(n % 10)`. For `n ≤ 99999` this coincides
with Python's `%05d` format. -/
def delay_digits (n : Nat) : List Char :=
  [Nat.digitChar (n / 10000 % 10), Nat.digitChar (n / 1000 % 10),
   Nat.digitChar (n / 100 % 10), Nat.digitChar (n / 10 % 10), Nat.digitChar (n % 10)]

/-- `_encode_heartbeat`: `A%05dB%05d` for two random readings (the
simulator draws them from `randint(5, 15)`, well inside the 5-digit
range where `delay_digits` equals `%05d`). -/
def encode_heartbeat (ha hb : Nat) : List Char :=
  'A' :: (delay_digits ha ++ 'B' :: delay_digits hb)

/-- Result of `MockSerialPort.read`: the new simulator state and the bytes
returned, or an uncaught exception with the state at the raise point. -/
inductive ReadOut where
  | ok : SimState → List Char → ReadOut
  | exn : String → SimState → ReadOut
deriving DecidableEq, Repr

/-- The state a `ReadOut` leaves behind. -/
def readStateOf : ReadOut → SimState
  | .ok s _ => s
  | .exn _ s => s

/-- `MockSerialPort.read`: serve `OK`, a Status frame (randomizing the
heartbeat pins afterwards, per `_update_heartbeat`), or a heartbeat frame;
otherwise pass through stdin. Randomness is an explicit argument. -/
def simRead (rndBits : ChanPair) (rndHb : Nat × Nat) (stdinData : List Char) (s : SimState) :
    ReadOut :=
  if s.isOpen = false then .exn "SerialException" s
  else if s.expectOk then .ok { s with expectOk := false } ['O', 'K', '\n']
  else if s.readRequested then
    .ok { s with readRequested := false,
                 pins := { s.pins with heartbeat := rndBits } }
      (encode_pin_states s.pins)
  else if s.heartbeatRequested then
    .ok { s with heartbeatRequested := false } (encode_heartbeat rndHb.1 rndHb.2)
  else .ok s stdinData

/-- Run a fired timer's callback. -/
def applyTimer (t : Timer) (s : SimState) : SimState :=
  match t.sig with
  | .estop => process_estop_delay t.channel t.newValue s
  | .interlock => process_interlock_delay t.channel t.newValue s

/-- Consume pending timer `i`: remove it from the list and run its
callback (a `threading.Timer` runs exactly once). -/
def fireTimer (s : SimState) (i : Nat) : SimState :=
  match s.timers.get? i with
  | none => s
  | some t => applyTimer t { s with timers := s.timers.eraseIdx i }

/-- A pending timer may fire only once the wall clock has passed both the
moment it was armed and its deadline. -/
def FireAllowed (s : SimState) (i : Nat) (now : Int) : Prop :=
  ∃ t, s.timers.get? i = some t ∧ s.clock ≤ now ∧ t.fireAt ≤ now

/-- Advance the wall clock. -/
def withClock (s : SimState) (now : Int) : SimState :=
  { s with clock := now }

/-- One observable event of the simulator: a serial write, a serial read,
a timer callback firing (only when allowed), or opening/closing the port.
Wall-clock time never moves backwards. -/
inductive Step : SimState → SimState → Prop where
  | writeData (s : SimState) (data : List Char) (now : Int) (h : s.clock ≤ now) :
      Step s (withClock (stateOf (simWrite data now s)) now)
  | readData (s : SimState) (rndBits : ChanPair) (rndHb : Nat × Nat) (stdinData : List Char)
      (now : Int) (h : s.clock ≤ now)
      (hb1 : 5 ≤ rndHb.1) (hb2 : rndHb.1 ≤ 15) (hb3 : 5 ≤ rndHb.2) (hb4 : rndHb.2 ≤ 15) :
      Step s (withClock (readStateOf (simRead rndBits rndHb stdinData s)) now)
  | fire (s : SimState) (i : Nat) (now : Int) (h : FireAllowed s i now) :
      Step s (withClock (fireTimer s i) now)
  | openPort (s : SimState) : Step s { s with isOpen := true }
  | closePort (s : SimState) : Step s { s with isOpen := false }

/-- The simulator states reachable from the initial state. -/
inductive Reachable : SimState → Prop where
  | init : Reachable initState
  | step {s s2 : SimState} : Reachable s → Step s s2 → Reachable s2

/-! ### The host-side protocol driver (`model.py`, class `Model`) -/

/-- Driver state: whether the serial port is open, and the cached
`output_pin_states` dictionary (all-false at construction). -/
structure DriverState where
  connected : Bool
  output_pin_states : PinStates
deriving DecidableEq, Repr

/-- `Model.disconnect_from_serial_port`: close the port unconditionally. -/
def disconnect_from_serial_port (st : DriverState) : DriverState :=
  { st with connected := false }

/-- Outcome of one transport primitive (`serial.write` / `serial.read`):
a value, or a raised `SerialException` / `SerialTimeoutException`. -/
inductive TResult (α : Type) where
  | ok : α → TResult α
  | err : TResult α
deriving DecidableEq, Repr

/-- Behaviour of the transport during a single driver operation (one
write then one read): whether the write raises, and what the read yields.
Timeouts surface as a short/empty read or as an exception, both covered. -/
structure PortBehavior where
  writeResult : TResult Unit
  readResult : TResult (List Char)

/-- `Model.read_response_OK`: the 3-byte response, stripped, equals "OK". -/
def read_response_OK (raw : List Char) : Bool :=
  pyStrip raw = ['O', 'K']

/-- `Model.write_data`: write the frame, read 3 bytes, succeed only on an
`OK` acknowledgement; any transport exception or a non-OK response
disconnects and returns `false`. -/
def write_data (pb : PortBehavior) (st : DriverState) (_data : List Char) :
    Bool × DriverState :=
  match pb.writeResult with
  | .err => (false, disconnect_from_serial_port st)
  | .ok _ =>
    match pb.readResult with
    | .err => (false, disconnect_from_serial_port st)
    | .ok raw =>
      if read_response_OK raw then (true, st)
      else (false, disconnect_from_serial_port st)

instance : Monad PRes where
  pure := PRes.ok
  bind m f :=
    match m with
    | .ok a => f a
    | .exn msg => .exn msg

/-- `response[i] == "1"` as the driver evaluates it while building the
pin-state dictionary; out-of-range raises `IndexError`. -/
def bitAt (response : List Char) (i : Nat) : PRes Bool :=
  match pyGet response i with
  | some c => .ok (c == '1')
  | none => .exn "IndexError"

/-- The decoding part of `Model.request_output_pin_states` (model.py
lines 182-196): marker checks with Python's short-circuit `or`, then the
dictionary of 16 bits; `ok none` is the `return {}` path. -/
def parse_status_response (response : List Char) : PRes (Option PinStates) :=
  match pyGet response 0 with
  | none => .exn "IndexError"
  | some c0 =>
    if c0 ≠ 'A' then .ok none
    else
      match pyGet response 9 with
      | none => .exn "IndexError"
      | some c9 =>
        if c9 ≠ 'B' then .ok none
        else do
          let m1a ← bitAt response 1
          let m1b ← bitAt response 10
          let m2a ← bitAt response 2
          let m2b ← bitAt response 11
          let esa ← bitAt response 3
          let esb ← bitAt response 12
          let ila ← bitAt response 4
          let ilb ← bitAt response 13
          let spa ← bitAt response 5
          let spb ← bitAt response 14
          let tca ← bitAt response 6
          let tcb ← bitAt response 15
          let hba ← bitAt response 7
          let hbb ← bitAt response 16
          let pwa ← bitAt response 8
          let pwb ← bitAt response 17
          pure (some
            { mode1 := ⟨m1a, m1b⟩, mode2 := ⟨m2a, m2b⟩, estop := ⟨esa, esb⟩,
              interlock := ⟨ila, ilb⟩, stop := ⟨spa, spb⟩, teach := ⟨tca, tcb⟩,
              heartbeat := ⟨hba, hbb⟩, power := ⟨pwa, pwb⟩ })

/-- `Model.request_output_pin_states`: send `R`, read 19 bytes, strip,
decode. Transport exceptions disconnect and return `{}`; a marker
mismatch returns `{}` without disconnecting; on success the result is
compared (whole dictionary) against the cached `output_pin_states` to
decide whether to emit the change-log line (the returned `Bool`). -/
def request_output_pin_states (pb : PortBehavior) (st : DriverState) :
    PRes (Option PinStates × Bool × DriverState) :=
  match pb.writeResult with
  | .err => .ok (none, false, disconnect_from_serial_port st)
  | .ok _ =>
    match pb.readResult with
    | .err => .ok (none, false, disconnect_from_serial_port st)
    | .ok raw =>
      match parse_status_response (pyStrip raw) with
      | .exn msg => .exn msg
      | .ok none => .ok (none, false, st)
      | .ok (some pins) =>
        if st.output_pin_states ≠ pins then
          .ok (some pins, true, { st with output_pin_states := pins })
        else .ok (some pins, false, st)

/-- `Model.request_heartbeat`: send `H`, read 13 bytes, strip; check the
`A`/`B` markers with short-circuit `and`, parse the two 5-digit fields
(`ValueError` is caught and yields `None`); the driver state is never
changed — in particular no disconnect happens on failure. -/
def request_heartbeat (pb : PortBehavior) (st : DriverState) :
    PRes (Option (Int × Int) × DriverState) :=
  match pb.writeResult with
  | .err => .ok (none, st)
  | .ok _ =>
    match pb.readResult with
    | .err => .ok (none, st)
    | .ok raw =>
      let data := pyStrip raw
      match pyGet data 0 with
      | none => .exn "IndexError"
      | some c0 =>
        if c0 = 'A' then
          match pyGet data 6 with
          | none => .exn "IndexError"
          | some c6 =>
            if c6 = 'B' then
              match pyInt (pySlice data 1 6), pyInt (pySlice data 7 12) with
              | some ha, some hb => .ok (some (ha, hb), st)
              | _, _ => .ok (none, st)
            else .ok (none, st)
        else .ok (none, st)

/-- The frame built by `Model.toggle_estop`: the cached channel states,
each negated iff its toggle flag is set, then either the short `E``ab`
frame or the delayed frame with first channel and 5 delay digits.
`first_channel` is the one-character selector (any other character,
including the default empty string, selects the short frame). -/
def estop_frame (st : DriverState) (toggle_a toggle_b : Bool) (first_channel : Char)
    (delay_ms : Nat) : List Char :=
  let curr_a := st.output_pin_states.estop.a
  let curr_b := st.output_pin_states.estop.b
  let e_stop_a := if toggle_a then !curr_a else curr_a
  let e_stop_b := if toggle_b then !curr_b else curr_b
  if first_channel = 'A' ∨ first_channel = 'B' then
    ['E', boolChar e_stop_a, boolChar e_stop_b, first_channel] ++ delay_digits delay_ms
  else ['E', boolChar e_stop_a, boolChar e_stop_b]

/-- `Model.toggle_estop`: build the frame and send it via `write_data`. -/
def toggle_estop (pb : PortBehavior) (st : DriverState) (toggle_a toggle_b : Bool)
    (first_channel : Char) (delay_ms : Nat) : Bool × DriverState :=
  write_data pb st (estop_frame st toggle_a toggle_b first_channel delay_ms)

/-- The frame built by `Model.toggle_interlock` (same shape, letter `I`). -/
def interlock_frame (st : DriverState) (toggle_a toggle_b : Bool) (first_channel : Char)
    (delay_ms : Nat) : List Char :=
  let curr_a := st.output_pin_states.interlock.a
  let curr_b := st.output_pin_states.interlock.b
  let interlock_a := if toggle_a then !curr_a else curr_a
  let interlock_b := if toggle_b then !curr_b else curr_b
  if first_channel = 'A' ∨ first_channel = 'B' then
    ['I', boolChar interlock_a, boolChar interlock_b, first_channel] ++ delay_digits delay_ms
  else ['I', boolChar interlock_a, boolChar interlock_b]

/-- `Model.toggle_interlock`: build the frame and send it via `write_data`. -/
def toggle_interlock (pb : PortBehavior) (st : DriverState) (toggle_a toggle_b : Bool)
    (first_channel : Char) (delay_ms : Nat) : Bool × DriverState :=
  write_data pb st (interlock_frame st toggle_a toggle_b first_channel delay_ms)

/-- The 18 payload characters of a Status frame (everything before the
trailing newline of `encode_pin_states`). -/
def status_frame (p : PinStates) : List Char :=
  ['A', boolChar p.mode1.a, boolChar p.mode2.a, boolChar p.estop.a, boolChar p.interlock.a,
   boolChar p.stop.a, boolChar p.teach.a, boolChar p.heartbeat.a, boolChar p.power.a,
   'B', boolChar p.mode1.b, boolChar p.mode2.b, boolChar p.estop.b, boolChar p.interlock.b,
   boolChar p.stop.b, boolChar p.teach.b, boolChar p.heartbeat.b, boolChar p.power.b]

/-! ### Helper lemmas -/

theorem boolChar_beq_one (b : Bool) : (boolChar b == '1') = b := by
  cases b <;> decide

theorem boolChar_not_space (b : Bool) : isPySpace (boolChar b) = false := by
  cases b <;> decide

theorem dropWhile_eq_self_of {p : Char → Bool} {l : List Char}
    (h : ∀ c ∈ l, p c = false) : l.dropWhile p = l := by
  cases l with
  | nil => rfl
  | cons a t => simp [List.dropWhile_cons, h a (List.mem_cons_self a t)]

theorem pyStrip_no_space {l : List Char} (h : ∀ c ∈ l, isPySpace c = false) :
    pyStrip l = l := by
  have h2 : ∀ c ∈ l.reverse, isPySpace c = false := by
    intro c hc
    exact h c (List.mem_reverse.mp hc)
  unfold pyStrip
  rw [dropWhile_eq_self_of h, dropWhile_eq_self_of h2, List.reverse_reverse]

theorem pyStrip_append_newline {l : List Char} (h : ∀ c ∈ l, isPySpace c = false) :
    pyStrip (l ++ ['\n']) = l := by
  cases l with
  | nil => decide
  | cons a t =>
    have h2 : ∀ c ∈ (a :: t).reverse, isPySpace c = false := by
      intro c hc
      exact h c (List.mem_reverse.mp hc)
    have h1 : ((a :: t) ++ ['\n']).dropWhile isPySpace = (a :: t) ++ ['\n'] := by
      have := h a (List.mem_cons_self a t)
      simp [List.dropWhile_cons, this]
    unfold pyStrip
    rw [h1, List.reverse_append]
    have h3 : (['\n'].reverse ++ (a :: t).reverse).dropWhile isPySpace
        = ((a :: t).reverse).dropWhile isPySpace := by
      simp [isPySpace, List.dropWhile_cons]
    rw [h3, dropWhile_eq_self_of h2, List.reverse_reverse]

theorem status_frame_no_space (p : PinStates) :
    ∀ c ∈ status_frame p, isPySpace c = false := by
  intro c hc
  simp only [status_frame, List.mem_cons, List.not_mem_nil, or_false] at hc
  rcases hc with rfl | rfl | rfl | rfl | rfl | rfl | rfl | rfl | rfl | rfl | rfl | rfl | rfl
    | rfl | rfl | rfl | rfl | rfl
  all_goals first | decide | exact boolChar_not_space _

theorem encode_pin_states_eq (p : PinStates) :
    encode_pin_states p = status_frame p ++ ['\n'] := rfl

/-- The driver's Status decoder inverts the simulator's Status encoder on
every pin snapshot. -/
theorem parse_status_frame (p : PinStates) :
    parse_status_response (status_frame p) = PRes.ok (some p) := by
  obtain ⟨⟨m1a, m1b⟩, ⟨m2a, m2b⟩, ⟨esa, esb⟩, ⟨ila, ilb⟩, ⟨spa, spb⟩, ⟨tca, tcb⟩,
    ⟨hba, hbb⟩, ⟨pwa, pwb⟩⟩ := p
  simp [parse_status_response, status_frame, bitAt, pyGet, boolChar_beq_one, Bind.bind, Pure.pure]

/-- `Model.__init__`: cached pin states all false, port not yet open. -/
def model_init : DriverState :=
  { connected := false
    output_pin_states :=
      { mode1 := ⟨false, false⟩, mode2 := ⟨false, false⟩, estop := ⟨false, false⟩,
        interlock := ⟨false, false⟩, stop := ⟨false, false⟩, teach := ⟨false, false⟩,
        heartbeat := ⟨false, false⟩, power := ⟨false, false⟩ } }

/-- `(if t then !c else c)` is exclusive-or with the toggle flag. -/
theorem toggle_eq_xor (c t : Bool) : (if t then !c else c) = Bool.xor c t := by
  cases c <;> cases t <;> rfl

/-- C6. Status frame round-trip: for every PinBank, the simulator's
encoding into the `'A'` + 8 bits + `'B'` + 8 bits frame followed by the
driver's decoding of that frame (the read-strip-parse path of
`request_output_pin_states`) reproduces exactly the PinBank that was
encoded, for both channels of every signal. -/
theorem C6_status_frame_roundtrip (p : PinStates) (st : DriverState) :
    parse_status_response (pyStrip (encode_pin_states p)) = PRes.ok (some p) ∧
    request_output_pin_states ⟨.ok (), .ok (encode_pin_states p)⟩ st =
      .ok (some p, decide (st.output_pin_states ≠ p), { st with output_pin_states := p }) := by
  have hparse : parse_status_response (pyStrip (encode_pin_states p)) = PRes.ok (some p) := by
    rw [encode_pin_states_eq, pyStrip_append_newline (status_frame_no_space p),
      parse_status_frame]
  refine ⟨hparse, ?_⟩
  simp only [request_output_pin_states]
  rw [hparse]
  by_cases h : st.output_pin_states = p
  · simp [h]
    cases st
    simp_all
  · simp [h]

/-- C10. The driver's E-Stop and Interlock commands carry toggled cached
state, not absolute values: the two state characters of the frame equal
the cached channel states with channel A negated iff `toggle_a` and
channel B negated iff `toggle_b` (for any first-channel selector, so for
both the short and the delayed frame); with both flags false the frame
re-asserts the cached state unchanged. -/
theorem C10_toggle_frames_carry_toggled_cached_state
    (st : DriverState) (ta tb : Bool) (fc : Char) (d : Nat) :
    pyGet (estop_frame st ta tb fc d) 1 =
      some (boolChar (Bool.xor st.output_pin_states.estop.a ta)) ∧
    pyGet (estop_frame st ta tb fc d) 2 =
      some (boolChar (Bool.xor st.output_pin_states.estop.b tb)) ∧
    pyGet (interlock_frame st ta tb fc d) 1 =
      some (boolChar (Bool.xor st.output_pin_states.interlock.a ta)) ∧
    pyGet (interlock_frame st ta tb fc d) 2 =
      some (boolChar (Bool.xor st.output_pin_states.interlock.b tb)) ∧
    estop_frame st false false fc d =
      (if fc = 'A' ∨ fc = 'B' then
        ['E', boolChar st.output_pin_states.estop.a, boolChar st.output_pin_states.estop.b, fc]
          ++ delay_digits d
      else
        ['E', boolChar st.output_pin_states.estop.a, boolChar st.output_pin_states.estop.b]) ∧
    toggle_estop ⟨.ok (), .ok ['O', 'K', '\n']⟩ st ta tb fc d =
      write_data ⟨.ok (), .ok ['O', 'K', '\n']⟩ st (estop_frame st ta tb fc d) := by
  refine ⟨?_, ?_, ?_, ?_, ?_, rfl⟩ <;>
    simp only [estop_frame, interlock_frame, ← toggle_eq_xor] <;>
    split <;>
    simp [pyGet]

/-- C9 counterexample. A delayed E-Stop command with `delay_ms = 100000`
(above 99999) is not rejected: a frame is built, its delay field silently
wraps to `"00000"`, and the command is sent and acknowledged. -/
theorem C9_counterexample_delay_overflow_sent :
    toggle_estop ⟨.ok (), .ok ['O', 'K', '\n']⟩
        { connected := true, output_pin_states := model_init.output_pin_states }
        true true 'A' 100000 =
      (true, { connected := true, output_pin_states := model_init.output_pin_states }) ∧
    estop_frame { connected := true, output_pin_states := model_init.output_pin_states }
        true true 'A' 100000 =
      ['E', '1', '1', 'A', '0', '0', '0', '0', '0'] := by
  decide

/-- C9 (amended). The delay field is always exactly 5 zero-padded decimal
digits; `delay_ms = 0` encodes to `"00000"` and `delay_ms = 99999` to
`"99999"`; but values above 99999 are not rejected: the driver encodes
`delay_ms mod 100000` and sends the frame anyway. -/
theorem C9_delay_field_encoding :
    delay_digits 0 = ['0', '0', '0', '0', '0'] ∧
    delay_digits 99999 = ['9', '9', '9', '9', '9'] ∧
    (∀ d : Nat, (delay_digits d).length = 5 ∧ delay_digits d = delay_digits (d % 100000)) ∧
    (∀ pb st ta tb fc d, toggle_estop pb st ta tb fc d =
      write_data pb st (estop_frame st ta tb fc d)) ∧
    (∀ pb st ta tb fc d, toggle_interlock pb st ta tb fc d =
      write_data pb st (interlock_frame st ta tb fc d)) := by
  refine ⟨by decide, by decide, ?_, fun _ _ _ _ _ _ => rfl, fun _ _ _ _ _ _ => rfl⟩
  intro d
  refine ⟨rfl, ?_⟩
  have h1 : d / 10000 % 10 = d % 100000 / 10000 % 10 := by omega
  have h2 : d / 1000 % 10 = d % 100000 / 1000 % 10 := by omega
  have h3 : d / 100 % 10 = d % 100000 / 100 % 10 := by omega
  have h4 : d / 10 % 10 = d % 100000 / 10 % 10 := by omega
  have h5 : d % 10 = d % 100000 % 10 := by omega
  simp [delay_digits, h1, h2, h3, h4, h5]

/-- C7 counterexample. Two snapshots that differ only in the heartbeat
field: polling status while the cache holds the first and the wire
carries the second emits the change notification (the comparison in
`request_output_pin_states` includes the heartbeat field). -/
theorem C7_counterexample_heartbeat_only_change_logs :
    (initState.pins.mode1 = { initState.pins with heartbeat := ⟨true, false⟩ }.mode1 ∧
     initState.pins.mode2 = { initState.pins with heartbeat := ⟨true, false⟩ }.mode2 ∧
     initState.pins.estop = { initState.pins with heartbeat := ⟨true, false⟩ }.estop ∧
     initState.pins.interlock = { initState.pins with heartbeat := ⟨true, false⟩ }.interlock ∧
     initState.pins.stop = { initState.pins with heartbeat := ⟨true, false⟩ }.stop ∧
     initState.pins.teach = { initState.pins with heartbeat := ⟨true, false⟩ }.teach ∧
     initState.pins.power = { initState.pins with heartbeat := ⟨true, false⟩ }.power) ∧
    request_output_pin_states
        ⟨.ok (), .ok (encode_pin_states { initState.pins with heartbeat := ⟨true, false⟩ })⟩
        { connected := true, output_pin_states := initState.pins } =
      .ok (some { initState.pins with heartbeat := ⟨true, false⟩ }, true,
        { connected := true,
          output_pin_states := { initState.pins with heartbeat := ⟨true, false⟩ } }) := by
  decide

/-- C7 (amended). `request_output_pin_states` emits a change notification
exactly when the newly decoded PinBank differs from the last-known one in
any field, the heartbeat field included: the comparison is over the whole
pin-state dictionary, so a heartbeat-only change is also logged. -/
theorem C7_change_notification_full_compare
    (raw : List Char) (st : DriverState) (pins : PinStates)
    (h : parse_status_response (pyStrip raw) = PRes.ok (some pins)) :
    request_output_pin_states ⟨.ok (), .ok raw⟩ st =
      .ok (some pins, decide (st.output_pin_states ≠ pins),
        { st with output_pin_states := pins }) := by
  simp only [request_output_pin_states]
  rw [h]
  by_cases hne : st.output_pin_states = pins
  · simp [hne]
    cases st
    simp_all
  · simp [hne]

/-- Witness for C7's amended theorem: on a concrete frame whose decode
differs from the cache only in the heartbeat bits, the notification flag
is true. -/
theorem C7_change_notification_full_compare_witness :
    request_output_pin_states
        ⟨.ok (), .ok (encode_pin_states { initState.pins with heartbeat := ⟨true, true⟩ })⟩
        { connected := true, output_pin_states := initState.pins } =
      .ok (some { initState.pins with heartbeat := ⟨true, true⟩ },
        decide (({ connected := true, output_pin_states := initState.pins } :
            DriverState).output_pin_states ≠
          { initState.pins with heartbeat := ⟨true, true⟩ }),
        { connected := true,
          output_pin_states := { initState.pins with heartbeat := ⟨true, true⟩ } }) :=
  C7_change_notification_full_compare _ _ _ (by decide)

/-- C5 evaluated at the failing inputs. The decoders do return the typed
failure on marker mismatches at the expected offsets (last two
conjuncts), but a response shorter than the checked offsets — e.g. the
empty string a timeout produces, or `"A"` alone for a heartbeat — makes
`response[0]` / `response[9]` / `data[6]` raise an uncaught `IndexError`
instead of returning `{}` / `None` as the functions' docstrings promise. -/
theorem C5_short_response_raises_index_error :
    parse_status_response [] = PRes.exn "IndexError" ∧
    parse_status_response ['A', '1', '0', '0', '0', '0', '0', '1', '0'] =
      PRes.exn "IndexError" ∧
    request_output_pin_states ⟨.ok (), .ok []⟩
        { connected := true, output_pin_states := initState.pins } =
      PRes.exn "IndexError" ∧
    request_heartbeat ⟨.ok (), .ok ['A']⟩
        { connected := true, output_pin_states := initState.pins } =
      PRes.exn "IndexError" ∧
    parse_status_response
        ['C', '1', '0', '0', '0', '0', '0', '1', '0', 'B',
         '0', '1', '0', '0', '0', '0', '1', '0'] = PRes.ok none ∧
    request_heartbeat ⟨.ok (), .ok ['X', '0', '0', '1', '0', '0', 'B', '0', '1', '2', '3', '4']⟩
        { connected := true, output_pin_states := initState.pins } =
      PRes.ok (none, { connected := true, output_pin_states := initState.pins }) := by
  decide

/-- C4 counterexample. A transport exception during `request_heartbeat`
on a connected driver returns `None` but leaves the driver connected — the
operation fails without disconnecting; a marker mismatch during
`request_output_pin_states` likewise returns `{}` while staying
connected; and an empty response makes `request_output_pin_states` raise
an uncaught `IndexError` rather than return its failure value. -/
theorem C4_counterexample_failures_keep_connection :
    request_heartbeat ⟨.err, .ok []⟩
        { connected := true, output_pin_states := initState.pins } =
      PRes.ok (none, { connected := true, output_pin_states := initState.pins }) ∧
    request_output_pin_states
        ⟨.ok (), .ok ['C', '1', '0', '0', '0', '0', '0', '1', '0', 'B',
                      '0', '1', '0', '0', '0', '0', '1', '0']⟩
        { connected := true, output_pin_states := initState.pins } =
      PRes.ok (none, false, { connected := true, output_pin_states := initState.pins }) ∧
    request_output_pin_states ⟨.ok (), .ok []⟩
        { connected := true, output_pin_states := initState.pins } =
      PRes.exn "IndexError" := by
  decide

/-- C4 (amended). Per-operation failure handling: set-commands through
`write_data` return `false` and disconnect on every failure (transport
exception or non-OK acknowledgement) and return `true` leaving the state
untouched otherwise; `request_output_pin_states` returns `{}` and
disconnects on a transport exception but returns `{}` without
disconnecting on a marker mismatch; `request_heartbeat` returns `None`
and never disconnects on a transport exception. No operation retries:
each performs at most one write and one read of its single transport
behaviour. -/
theorem C4_failure_handling_per_operation
    (pb : PortBehavior) (st : DriverState) (data raw : List Char)
    (rr : TResult (List Char))
    (hmm : parse_status_response (pyStrip raw) = PRes.ok none) :
    ((write_data pb st data).1 = false →
      (write_data pb st data).2.connected = false) ∧
    ((write_data pb st data).1 = true → (write_data pb st data).2 = st) ∧
    request_output_pin_states ⟨.err, rr⟩ st =
      PRes.ok (none, false, disconnect_from_serial_port st) ∧
    request_output_pin_states ⟨.ok (), .err⟩ st =
      PRes.ok (none, false, disconnect_from_serial_port st) ∧
    request_output_pin_states ⟨.ok (), .ok raw⟩ st = PRes.ok (none, false, st) ∧
    request_heartbeat ⟨.err, rr⟩ st = PRes.ok (none, st) ∧
    request_heartbeat ⟨.ok (), .err⟩ st = PRes.ok (none, st) := by
  refine ⟨?_, ?_, rfl, rfl, ?_, rfl, rfl⟩
  · unfold write_data
    cases pb.writeResult with
    | err => intro; rfl
    | ok u =>
      cases pb.readResult with
      | err => intro; rfl
      | ok raw2 =>
        by_cases h : read_response_OK raw2 <;> simp [h, disconnect_from_serial_port]
  · unfold write_data
    cases pb.writeResult with
    | err => simp
    | ok u =>
      cases pb.readResult with
      | err => simp
      | ok raw2 =>
        by_cases h : read_response_OK raw2 <;> simp [h]
  · simp only [request_output_pin_states]
    rw [hmm]

/-- Witness for C4's amended theorem at a concrete transport behaviour,
driver state and malformed (wrong-marker) response. -/
theorem C4_failure_handling_per_operation_witness :
    ((write_data ⟨.err, .ok []⟩ model_init []).1 = false →
      (write_data ⟨.err, .ok []⟩ model_init []).2.connected = false) ∧
    ((write_data ⟨.err, .ok []⟩ model_init []).1 = true →
      (write_data ⟨.err, .ok []⟩ model_init []).2 = model_init) ∧
    request_output_pin_states ⟨.err, .ok []⟩ model_init =
      PRes.ok (none, false, disconnect_from_serial_port model_init) ∧
    request_output_pin_states ⟨.ok (), .err⟩ model_init =
      PRes.ok (none, false, disconnect_from_serial_port model_init) ∧
    request_output_pin_states
        ⟨.ok (), .ok ['C', '1', '0', '0', '0', '0', '0', '1', '0', 'B',
                      '0', '1', '0', '0', '0', '0', '1', '0']⟩ model_init =
      PRes.ok (none, false, model_init) ∧
    request_heartbeat ⟨.err, .ok []⟩ model_init = PRes.ok (none, model_init) ∧
    request_heartbeat ⟨.ok (), .err⟩ model_init = PRes.ok (none, model_init) :=
  C4_failure_handling_per_operation ⟨.err, .ok []⟩ model_init []
    ['C', '1', '0', '0', '0', '0', '0', '1', '0', 'B',
     '0', '1', '0', '0', '0', '0', '1', '0'] (.ok []) (by decide)

/-- C8 counterexample. Serving a ReadStatus request is not mutation-free:
with the heartbeat randomness drawing `(1, 1)`, the heartbeat pin pair
changes from `(false, false)` to `(true, true)` while the request is
served, so the pin states after the read differ from those before it. -/
theorem C8_counterexample_readstatus_mutates_heartbeat :
    (readStateOf (simRead ⟨true, true⟩ (7, 7) []
        { initState with isOpen := true, readRequested := true })).pins ≠
      ({ initState with isOpen := true, readRequested := true } : SimState).pins ∧
    simRead ⟨true, true⟩ (7, 7) [] { initState with isOpen := true, readRequested := true } =
      .ok { initState with
              isOpen := true,
              readRequested := false,
              pins := { initState.pins with heartbeat := ⟨true, true⟩ } }
        (encode_pin_states initState.pins) := by
  decide

/-- C8 (amended). Serving a ReadStatus request (write of `R` followed by
the read returning the Status frame) leaves every pin unchanged except
the heartbeat pair, which `_update_heartbeat` re-randomizes after the
frame has been built; the returned frame reflects the pre-update pin
states, and the write of `R` itself mutates no pins. -/
theorem C8_readstatus_mutates_only_heartbeat
    (s : SimState) (rnd : ChanPair) (hb : Nat × Nat) (stdin : List Char) (now : Int)
    (hopen : s.isOpen = true) (hok : s.expectOk = false) (hreq : s.readRequested = true) :
    stateOf (simWrite ['R'] now s) = { s with readRequested := true } ∧
    simRead rnd hb stdin s =
      .ok { s with readRequested := false, pins := { s.pins with heartbeat := rnd } }
        (encode_pin_states s.pins) := by
  constructor
  · simp [simWrite, hopen, show pyGet (pyStrip ['R']) 0 = some 'R' from rfl, stateOf]
  · simp [simRead, hopen, hok, hreq]

/-- Witness for C8's amended theorem at a concrete open simulator state
with a pending ReadStatus request. -/
theorem C8_readstatus_mutates_only_heartbeat_witness :
    stateOf (simWrite ['R'] 0 { initState with isOpen := true, readRequested := true }) =
      { { initState with isOpen := true, readRequested := true } with readRequested := true } ∧
    simRead ⟨false, true⟩ (9, 12) [] { initState with isOpen := true, readRequested := true } =
      .ok { { initState with isOpen := true, readRequested := true } with
            readRequested := false,
            pins := { ({ initState with isOpen := true, readRequested := true } :
                SimState).pins with heartbeat := ⟨false, true⟩ } }
        (encode_pin_states ({ initState with isOpen := true, readRequested := true } :
          SimState).pins) :=
  C8_readstatus_mutates_only_heartbeat _ _ _ _ 0 rfl rfl rfl

/-- C3 counterexample. A delayed E-Stop command (`E00A00500`) leaves a
pending timer for channel B; a newer immediate command (`E11`) issued
while it is pending does not cancel it, and when the pending timer fires
it overwrites the state established by the newer command: `estop` ends as
`(true, false)` instead of the newer command's `(true, true)`. The final
state is reachable from the initial state. -/
theorem C3_counterexample_pending_transition_overwrites :
    (withClock (stateOf (simWrite ['E', '1', '1'] 100
        (withClock (stateOf (simWrite ['E', '0', '0', 'A', '0', '0', '5', '0', '0'] 0
          { initState with isOpen := true })) 0))) 100).pins.estop = ⟨true, true⟩ ∧
    (withClock (stateOf (simWrite ['E', '1', '1'] 100
        (withClock (stateOf (simWrite ['E', '0', '0', 'A', '0', '0', '5', '0', '0'] 0
          { initState with isOpen := true })) 0))) 100).timers =
      [⟨SignalKind.estop, 'B', false, 500⟩] ∧
    FireAllowed (withClock (stateOf (simWrite ['E', '1', '1'] 100
        (withClock (stateOf (simWrite ['E', '0', '0', 'A', '0', '0', '5', '0', '0'] 0
          { initState with isOpen := true })) 0))) 100) 0 500 ∧
    (withClock (fireTimer (withClock (stateOf (simWrite ['E', '1', '1'] 100
        (withClock (stateOf (simWrite ['E', '0', '0', 'A', '0', '0', '5', '0', '0'] 0
          { initState with isOpen := true })) 0))) 100) 0) 500).pins.estop =
      ⟨true, false⟩ ∧
    Reachable (withClock (fireTimer (withClock (stateOf (simWrite ['E', '1', '1'] 100
        (withClock (stateOf (simWrite ['E', '0', '0', 'A', '0', '0', '5', '0', '0'] 0
          { initState with isOpen := true })) 0))) 100) 0) 500) := by
  refine ⟨by decide, by decide, ⟨⟨SignalKind.estop, 'B', false, 500⟩, by decide, by decide,
    by decide⟩, by decide, ?_⟩
  refine Reachable.step (Reachable.step (Reachable.step (Reachable.step Reachable.init
    (Step.openPort initState)) (Step.writeData _ _ 0 (by decide)))
    (Step.writeData _ _ 100 (by decide))) (Step.fire _ 0 500 ?_)
  exact ⟨⟨SignalKind.estop, 'B', false, 500⟩, by decide, by decide, by decide⟩

/-- C3 (amended). A newly issued E-Stop/Interlock command for a signal
does not cancel a still-pending delayed transition for that signal: an
immediate command leaves the pending timer list untouched (and a delayed
one only appends to it), and a pending timer, once allowed to fire,
overwrites the channel it targets regardless of any commands issued after
it was armed. -/
theorem C3_no_cancellation_pending_timer_overwrites
    (s : SimState) (va vb : Bool) (now : Int) (i : Nat) (t : Timer)
    (hopen : s.isOpen = true) :
    (stateOf (simWrite ['E', boolChar va, boolChar vb] now s)).timers = s.timers ∧
    (stateOf (simWrite ['I', boolChar va, boolChar vb] now s)).timers = s.timers ∧
    (s.timers.get? i = some t → t.sig = SignalKind.estop → t.channel = 'B' →
      (fireTimer s i).pins.estop = ⟨s.pins.estop.a, t.newValue⟩) ∧
    (s.timers.get? i = some t → t.sig = SignalKind.interlock → t.channel = 'B' →
      (fireTimer s i).pins.interlock = ⟨s.pins.interlock.a, t.newValue⟩) := by
  have hmem : ∀ c ∈ ['E', boolChar va, boolChar vb], isPySpace c = false := by
    intro c hc
    simp only [List.mem_cons, List.not_mem_nil, or_false] at hc
    rcases hc with rfl | rfl | rfl
    · decide
    · exact boolChar_not_space _
    · exact boolChar_not_space _
  have hmemI : ∀ c ∈ ['I', boolChar va, boolChar vb], isPySpace c = false := by
    intro c hc
    simp only [List.mem_cons, List.not_mem_nil, or_false] at hc
    rcases hc with rfl | rfl | rfl
    · decide
    · exact boolChar_not_space _
    · exact boolChar_not_space _
  refine ⟨?_, ?_, ?_, ?_⟩
  · simp [simWrite, hopen, pyStrip_no_space hmem, pyGet, set_estop_from_serial_data,
      expectOkAfter, stateOf, update_stop_pin_state]
  · simp [simWrite, hopen, pyStrip_no_space hmemI, pyGet, set_interlock_from_serial_data,
      expectOkAfter, stateOf]
  · intro hget hsig hch
    rw [List.get?_eq_getElem?] at hget
    simp [fireTimer, List.get?_eq_getElem?, hget, applyTimer, hsig, process_estop_delay, hch,
      update_stop_pin_state]
  · intro hget hsig hch
    rw [List.get?_eq_getElem?] at hget
    simp [fireTimer, List.get?_eq_getElem?, hget, applyTimer, hsig, process_interlock_delay, hch]

/-- Witness for C3's amended theorem: an open state holding one pending
channel-B E-Stop timer. -/
theorem C3_no_cancellation_pending_timer_overwrites_witness :
    (let s : SimState := { initState with
        isOpen := true, timers := [⟨SignalKind.estop, 'B', false, 500⟩] };
     (stateOf (simWrite ['E', boolChar true, boolChar true] 0 s)).timers = s.timers ∧
     (stateOf (simWrite ['I', boolChar true, boolChar true] 0 s)).timers = s.timers ∧
     (s.timers.get? 0 = some ⟨SignalKind.estop, 'B', false, 500⟩ →
       (⟨SignalKind.estop, 'B', false, 500⟩ : Timer).sig = SignalKind.estop →
       (⟨SignalKind.estop, 'B', false, 500⟩ : Timer).channel = 'B' →
       (fireTimer s 0).pins.estop =
         ⟨s.pins.estop.a, (⟨SignalKind.estop, 'B', false, 500⟩ : Timer).newValue⟩) ∧
     (s.timers.get? 0 = some ⟨SignalKind.estop, 'B', false, 500⟩ →
       (⟨SignalKind.estop, 'B', false, 500⟩ : Timer).sig = SignalKind.interlock →
       (⟨SignalKind.estop, 'B', false, 500⟩ : Timer).channel = 'B' →
       (fireTimer s 0).pins.interlock =
         ⟨s.pins.interlock.a, (⟨SignalKind.estop, 'B', false, 500⟩ : Timer).newValue⟩)) :=
  C3_no_cancellation_pending_timer_overwrites _ true true 0 0 _ rfl

theorem digitChar_not_space : ∀ m < 10, isPySpace (Nat.digitChar m) = false := by
  decide

theorem digitVal_digitChar : ∀ m < 10, digitVal (Nat.digitChar m) = some m := by
  decide

theorem digitChar_ne_dash : ∀ m < 10, Nat.digitChar m ≠ '-' := by
  decide

theorem digitChar_ne_plus : ∀ m < 10, Nat.digitChar m ≠ '+' := by
  decide

theorem delay_digits_no_space (n : Nat) : ∀ c ∈ delay_digits n, isPySpace c = false := by
  intro c hc
  simp only [delay_digits, List.mem_cons, List.not_mem_nil, or_false] at hc
  rcases hc with rfl | rfl | rfl | rfl | rfl <;>
    exact digitChar_not_space _ (Nat.mod_lt _ (by norm_num))

/-- `int()` inverts the 5-digit zero-padded encoding on its range. -/
theorem pyInt_delay_digits (n : Nat) (h : n ≤ 99999) :
    pyInt (delay_digits n) = some (n : Int) := by
  have hs : pyStrip (delay_digits n) = delay_digits n :=
    pyStrip_no_space (delay_digits_no_space n)
  have h1 : n / 10000 % 10 < 10 := Nat.mod_lt _ (by norm_num)
  have h2 : n / 1000 % 10 < 10 := Nat.mod_lt _ (by norm_num)
  have h3 : n / 100 % 10 < 10 := Nat.mod_lt _ (by norm_num)
  have h4 : n / 10 % 10 < 10 := Nat.mod_lt _ (by norm_num)
  have h5 : n % 10 < 10 := Nat.mod_lt _ (by norm_num)
  unfold pyInt
  rw [hs]
  split
  · rename_i heq
    simp [delay_digits] at heq
  · rename_i rest heq
    have : Nat.digitChar (n / 10000 % 10) = '-' := by
      have := congrArg (fun l => pyGet l 0) heq
      simpa [delay_digits, pyGet] using this
    exact absurd this (digitChar_ne_dash _ h1)
  · rename_i rest heq
    have : Nat.digitChar (n / 10000 % 10) = '+' := by
      have := congrArg (fun l => pyGet l 0) heq
      simpa [delay_digits, pyGet] using this
    exact absurd this (digitChar_ne_plus _ h1)
  · have hval : ((((0 * 10 + n / 10000 % 10) * 10 + n / 1000 % 10) * 10 + n / 100 % 10) * 10
        + n / 10 % 10) * 10 + n % 10 = n := by omega
    simp only [delay_digits, parseDigits, digitVal_digitChar _ h1, digitVal_digitChar _ h2,
      digitVal_digitChar _ h3, digitVal_digitChar _ h4, digitVal_digitChar _ h5,
      Option.map_some, hval]
    simp

theorem timers_get_concat (l : List Timer) (t : Timer) :
    (l ++ [t]).get? l.length = some t := by
  induction l with
  | nil => rfl
  | cons a tl ih => simp

theorem timers_eraseIdx_concat (l : List Timer) (t : Timer) :
    (l ++ [t]).eraseIdx l.length = l := by
  induction l with
  | nil => rfl
  | cons a tl ih => simpa [List.eraseIdx] using ih

theorem delayed_frame_no_space {c0 fc : Char} (va vb : Bool) (dl : Nat)
    (h0 : isPySpace c0 = false) (hfc : isPySpace fc = false) :
    ∀ c ∈ (c0 :: boolChar va :: boolChar vb :: fc :: delay_digits dl),
      isPySpace c = false := by
  intro c hc
  simp only [List.mem_cons] at hc
  rcases hc with rfl | rfl | rfl | rfl | hc
  · exact h0
  · exact boolChar_not_space _
  · exact boolChar_not_space _
  · exact hfc
  · exact delay_digits_no_space dl c hc

theorem simWrite_estop_delayed_A (s : SimState) (now : Int) (va vb : Bool) (dl : Nat)
    (hopen : s.isOpen = true) (hdl : dl ≤ 99999) :
    simWrite ('E' :: boolChar va :: boolChar vb :: 'A' :: delay_digits dl) now s =
      .ok { (update_stop_pin_state
        { s with pins := { s.pins with estop := ⟨va, s.pins.estop.b⟩ },
                 timers := s.timers ++ [⟨SignalKind.estop, 'B', vb, now + (dl : Int)⟩] })
        with expectOk := true } := by
  have hs : pyStrip ('E' :: boolChar va :: boolChar vb :: 'A' :: delay_digits dl) =
      'E' :: boolChar va :: boolChar vb :: 'A' :: delay_digits dl :=
    pyStrip_no_space (delayed_frame_no_space va vb dl (by decide) (by decide))
  have hslice : pySlice ('E' :: boolChar va :: boolChar vb :: 'A' :: delay_digits dl) 4 9 =
      delay_digits dl := rfl
  have hlen : ('E' :: boolChar va :: boolChar vb :: 'A' :: delay_digits dl).length = 9 := rfl
  simp [simWrite, hopen, hs, pyGet, set_estop_from_serial_data, hslice, hlen,
    pyInt_delay_digits dl hdl, expectOkAfter, boolChar_beq_one]

theorem simWrite_estop_delayed_B (s : SimState) (now : Int) (va vb : Bool) (dl : Nat)
    (hopen : s.isOpen = true) (hdl : dl ≤ 99999) :
    simWrite ('E' :: boolChar va :: boolChar vb :: 'B' :: delay_digits dl) now s =
      .ok { (update_stop_pin_state
        { s with pins := { s.pins with estop := ⟨s.pins.estop.a, vb⟩ },
                 timers := s.timers ++ [⟨SignalKind.estop, 'A', va, now + (dl : Int)⟩] })
        with expectOk := true } := by
  have hs : pyStrip ('E' :: boolChar va :: boolChar vb :: 'B' :: delay_digits dl) =
      'E' :: boolChar va :: boolChar vb :: 'B' :: delay_digits dl :=
    pyStrip_no_space (delayed_frame_no_space va vb dl (by decide) (by decide))
  have hslice : pySlice ('E' :: boolChar va :: boolChar vb :: 'B' :: delay_digits dl) 4 9 =
      delay_digits dl := rfl
  have hlen : ('E' :: boolChar va :: boolChar vb :: 'B' :: delay_digits dl).length = 9 := rfl
  simp [simWrite, hopen, hs, pyGet, set_estop_from_serial_data, hslice, hlen,
    pyInt_delay_digits dl hdl, expectOkAfter, boolChar_beq_one]

theorem simWrite_interlock_delayed_A (s : SimState) (now : Int) (va vb : Bool) (dl : Nat)
    (hopen : s.isOpen = true) (hdl : dl ≤ 99999) :
    simWrite ('I' :: boolChar va :: boolChar vb :: 'A' :: delay_digits dl) now s =
      .ok { s with pins := { s.pins with interlock := ⟨va, s.pins.interlock.b⟩ },
                   timers := s.timers ++ [⟨SignalKind.interlock, 'B', vb, now + (dl : Int)⟩],
                   expectOk := true } := by
  have hs : pyStrip ('I' :: boolChar va :: boolChar vb :: 'A' :: delay_digits dl) =
      'I' :: boolChar va :: boolChar vb :: 'A' :: delay_digits dl :=
    pyStrip_no_space (delayed_frame_no_space va vb dl (by decide) (by decide))
  have hslice : pySlice ('I' :: boolChar va :: boolChar vb :: 'A' :: delay_digits dl) 4 9 =
      delay_digits dl := rfl
  have hlen : ('I' :: boolChar va :: boolChar vb :: 'A' :: delay_digits dl).length = 9 := rfl
  simp [simWrite, hopen, hs, pyGet, set_interlock_from_serial_data, hslice, hlen,
    pyInt_delay_digits dl hdl, expectOkAfter, boolChar_beq_one]

theorem simWrite_interlock_delayed_B (s : SimState) (now : Int) (va vb : Bool) (dl : Nat)
    (hopen : s.isOpen = true) (hdl : dl ≤ 99999) :
    simWrite ('I' :: boolChar va :: boolChar vb :: 'B' :: delay_digits dl) now s =
      .ok { s with pins := { s.pins with interlock := ⟨s.pins.interlock.a, vb⟩ },
                   timers := s.timers ++ [⟨SignalKind.interlock, 'A', va, now + (dl : Int)⟩],
                   expectOk := true } := by
  have hs : pyStrip ('I' :: boolChar va :: boolChar vb :: 'B' :: delay_digits dl) =
      'I' :: boolChar va :: boolChar vb :: 'B' :: delay_digits dl :=
    pyStrip_no_space (delayed_frame_no_space va vb dl (by decide) (by decide))
  have hslice : pySlice ('I' :: boolChar va :: boolChar vb :: 'B' :: delay_digits dl) 4 9 =
      delay_digits dl := rfl
  have hlen : ('I' :: boolChar va :: boolChar vb :: 'B' :: delay_digits dl).length = 9 := rfl
  simp [simWrite, hopen, hs, pyGet, set_interlock_from_serial_data, hslice, hlen,
    pyInt_delay_digits dl hdl, expectOkAfter, boolChar_beq_one]

/-- C2. For every delayed `SetEStop`/`SetInterlock` command (letter + 2
state characters + first-channel letter + 5 delay digits), the simulator
sets the named first channel to its commanded value immediately while the
other channel keeps its prior value; one new pending transition for the
other channel is appended, it may fire no earlier than `delay_ms` after
the command was processed, and firing it sets the other channel to its
commanded value and consumes the transition (so it runs exactly once). -/
theorem C2_delayed_command_sets_first_then_other
    (s : SimState) (now now2 : Int) (va vb : Bool) (dl : Nat)
    (hopen : s.isOpen = true) (hdl : dl ≤ 99999) :
    (let s2 := stateOf (simWrite ('E' :: boolChar va :: boolChar vb :: 'A' :: delay_digits dl)
        now s)
     s2.pins.estop = ⟨va, s.pins.estop.b⟩ ∧
     s2.pins.interlock = s.pins.interlock ∧
     s2.timers = s.timers ++ [⟨SignalKind.estop, 'B', vb, now + (dl : Int)⟩] ∧
     (FireAllowed s2 s.timers.length now2 → now + (dl : Int) ≤ now2) ∧
     (fireTimer s2 s.timers.length).pins.estop = ⟨va, vb⟩ ∧
     (fireTimer s2 s.timers.length).timers = s.timers) ∧
    (let s2 := stateOf (simWrite ('E' :: boolChar va :: boolChar vb :: 'B' :: delay_digits dl)
        now s)
     s2.pins.estop = ⟨s.pins.estop.a, vb⟩ ∧
     s2.pins.interlock = s.pins.interlock ∧
     s2.timers = s.timers ++ [⟨SignalKind.estop, 'A', va, now + (dl : Int)⟩] ∧
     (FireAllowed s2 s.timers.length now2 → now + (dl : Int) ≤ now2) ∧
     (fireTimer s2 s.timers.length).pins.estop = ⟨va, vb⟩ ∧
     (fireTimer s2 s.timers.length).timers = s.timers) ∧
    (let s2 := stateOf (simWrite ('I' :: boolChar va :: boolChar vb :: 'A' :: delay_digits dl)
        now s)
     s2.pins.interlock = ⟨va, s.pins.interlock.b⟩ ∧
     s2.pins.estop = s.pins.estop ∧
     s2.timers = s.timers ++ [⟨SignalKind.interlock, 'B', vb, now + (dl : Int)⟩] ∧
     (FireAllowed s2 s.timers.length now2 → now + (dl : Int) ≤ now2) ∧
     (fireTimer s2 s.timers.length).pins.interlock = ⟨va, vb⟩ ∧
     (fireTimer s2 s.timers.length).timers = s.timers) ∧
    (let s2 := stateOf (simWrite ('I' :: boolChar va :: boolChar vb :: 'B' :: delay_digits dl)
        now s)
     s2.pins.interlock = ⟨s.pins.interlock.a, vb⟩ ∧
     s2.pins.estop = s.pins.estop ∧
     s2.timers = s.timers ++ [⟨SignalKind.interlock, 'A', va, now + (dl : Int)⟩] ∧
     (FireAllowed s2 s.timers.length now2 → now + (dl : Int) ≤ now2) ∧
     (fireTimer s2 s.timers.length).pins.interlock = ⟨va, vb⟩ ∧
     (fireTimer s2 s.timers.length).timers = s.timers) := by
  refine ⟨?_, ?_, ?_, ?_⟩
  · rw [simWrite_estop_delayed_A s now va vb dl hopen hdl]
    refine ⟨rfl, rfl, rfl, ?_, ?_, ?_⟩
    · rintro ⟨t, hget, hclk, hfire⟩
      simp only [stateOf, update_stop_pin_state] at hget
      rw [timers_get_concat] at hget
      cases hget
      exact hfire
    · simp only [stateOf, fireTimer, update_stop_pin_state, timers_get_concat,
        timers_eraseIdx_concat, applyTimer, process_estop_delay]
      simp
    · simp only [stateOf, fireTimer, update_stop_pin_state, timers_get_concat,
        timers_eraseIdx_concat, applyTimer, process_estop_delay]
      simp
  · rw [simWrite_estop_delayed_B s now va vb dl hopen hdl]
    refine ⟨rfl, rfl, rfl, ?_, ?_, ?_⟩
    · rintro ⟨t, hget, hclk, hfire⟩
      simp only [stateOf, update_stop_pin_state] at hget
      rw [timers_get_concat] at hget
      cases hget
      exact hfire
    · simp only [stateOf, fireTimer, update_stop_pin_state, timers_get_concat,
        timers_eraseIdx_concat, applyTimer, process_estop_delay]
      simp
    · simp only [stateOf, fireTimer, update_stop_pin_state, timers_get_concat,
        timers_eraseIdx_concat, applyTimer, process_estop_delay]
      simp
  · rw [simWrite_interlock_delayed_A s now va vb dl hopen hdl]
    refine ⟨rfl, rfl, rfl, ?_, ?_, ?_⟩
    · rintro ⟨t, hget, hclk, hfire⟩
      simp only [stateOf, update_stop_pin_state] at hget
      rw [timers_get_concat] at hget
      cases hget
      exact hfire
    · simp only [stateOf, fireTimer, timers_get_concat, timers_eraseIdx_concat, applyTimer,
        process_interlock_delay]
      simp
    · simp only [stateOf, fireTimer, timers_get_concat, timers_eraseIdx_concat, applyTimer,
        process_interlock_delay]
      simp
  · rw [simWrite_interlock_delayed_B s now va vb dl hopen hdl]
    refine ⟨rfl, rfl, rfl, ?_, ?_, ?_⟩
    · rintro ⟨t, hget, hclk, hfire⟩
      simp only [stateOf, update_stop_pin_state] at hget
      rw [timers_get_concat] at hget
      cases hget
      exact hfire
    · simp only [stateOf, fireTimer, timers_get_concat, timers_eraseIdx_concat, applyTimer,
        process_interlock_delay]
      simp
    · simp only [stateOf, fireTimer, timers_get_concat, timers_eraseIdx_concat, applyTimer,
        process_interlock_delay]
      simp

/-- Witness for C2 at the concrete open initial state, command
`E11A00250` processed at time 0 and a fire attempt at time 250. -/
theorem C2_delayed_command_sets_first_then_other_witness :
    (({ initState with isOpen := true } : SimState).isOpen = true ∧ (250 : Nat) ≤ 99999) ∧
    (let s2 := stateOf (simWrite
        ('E' :: boolChar true :: boolChar true :: 'A' :: delay_digits 250) 0
        { initState with isOpen := true })
     s2.pins.estop = ⟨true, ({ initState with isOpen := true } : SimState).pins.estop.b⟩ ∧
     s2.pins.interlock = ({ initState with isOpen := true } : SimState).pins.interlock ∧
     s2.timers = ({ initState with isOpen := true } : SimState).timers ++
       [⟨SignalKind.estop, 'B', true, 0 + ((250 : Nat) : Int)⟩] ∧
     (FireAllowed s2 ({ initState with isOpen := true } : SimState).timers.length 250 →
       0 + ((250 : Nat) : Int) ≤ 250) ∧
     (fireTimer s2 ({ initState with isOpen := true } : SimState).timers.length).pins.estop =
       ⟨true, true⟩ ∧
     (fireTimer s2 ({ initState with isOpen := true } : SimState).timers.length).timers =
       ({ initState with isOpen := true } : SimState).timers) :=
  ⟨⟨rfl, by norm_num⟩,
    (C2_delayed_command_sets_first_then_other { initState with isOpen := true } 0 250
      true true 250 rfl (by norm_num)).1⟩

theorem chanPair_eta (p : ChanPair) : (⟨p.a, p.b⟩ : ChanPair) = p := rfl

theorem expectOkAfter_pins (r : POut SimState) :
    (stateOf (expectOkAfter r)).pins = (stateOf r).pins := by
  cases r <;> rfl

theorem set_mode_pins (d : List Char) (s : SimState) :
    (stateOf (set_mode_from_serial_data d s)).pins.stop = s.pins.stop ∧
    (stateOf (set_mode_from_serial_data d s)).pins.estop = s.pins.estop := by
  rcases h1 : pyGet d 1 with _ | c1 <;> rcases h3 : pyGet d 3 with _ | c3 <;>
    rcases h2 : pyGet d 2 with _ | c2 <;> rcases h4 : pyGet d 4 with _ | c4 <;>
    simp [set_mode_from_serial_data, h1, h2, h3, h4, stateOf]

theorem set_power_pins (d : List Char) (s : SimState) :
    (stateOf (set_power_from_serial_data d s)).pins.stop = s.pins.stop ∧
    (stateOf (set_power_from_serial_data d s)).pins.estop = s.pins.estop := by
  rcases h1 : pyGet d 1 with _ | c1 <;> simp [set_power_from_serial_data, h1, stateOf]

theorem set_interlock_pins (d : List Char) (now : Int) (s : SimState) :
    (stateOf (set_interlock_from_serial_data d now s)).pins.stop = s.pins.stop ∧
    (stateOf (set_interlock_from_serial_data d now s)).pins.estop = s.pins.estop := by
  unfold set_interlock_from_serial_data
  by_cases h3 : (pyStrip d).length = 3
  · rcases hg1 : pyGet d 1 with _ | c1 <;> rcases hg2 : pyGet d 2 with _ | c2 <;>
      simp [h3, hg1, hg2, stateOf]
  · by_cases h9 : (pyStrip d).length = 9
    · rcases hg3 : pyGet (pyStrip d) 3 with _ | fc
      · simp [h3, h9, hg3, stateOf]
      · rcases hi : pyInt (pySlice (pyStrip d) 4 9) with _ | dm
        · simp [h3, h9, hg3, hi, stateOf]
        · rcases hg1 : pyGet d 1 with _ | c1 <;> rcases hg2 : pyGet d 2 with _ | c2 <;>
            simp [h3, h9, hg3, hi, hg1, hg2, stateOf] <;> (try split_ifs) <;> (try simp)
    · simp [h3, h9, stateOf]

theorem set_estop_inv (d : List Char) (now : Int) (s : SimState)
    (h : s.pins.stop = s.pins.estop) :
    (stateOf (set_estop_from_serial_data d now s)).pins.stop =
      (stateOf (set_estop_from_serial_data d now s)).pins.estop := by
  unfold set_estop_from_serial_data
  by_cases h3 : (pyStrip d).length = 3
  · rcases hg1 : pyGet d 1 with _ | c1 <;> rcases hg2 : pyGet d 2 with _ | c2 <;>
      simp [h3, hg1, hg2, stateOf, update_stop_pin_state, chanPair_eta] <;> (try exact h)
  · by_cases h9 : (pyStrip d).length = 9
    · rcases hg3 : pyGet (pyStrip d) 3 with _ | fc
      · simp [h3, h9, hg3, stateOf]
        exact h
      · rcases hi : pyInt (pySlice (pyStrip d) 4 9) with _ | dm
        · simp [h3, h9, hg3, hi, stateOf]
          exact h
        · rcases hg1 : pyGet d 1 with _ | c1 <;> rcases hg2 : pyGet d 2 with _ | c2 <;>
            simp [h3, h9, hg3, hi, hg1, hg2, stateOf, update_stop_pin_state, chanPair_eta] <;>
            (try split_ifs) <;> (try simp) <;> (try exact h)
    · simp [h3, h9, stateOf]
      exact h

theorem process_estop_delay_inv (c : Char) (b : Bool) (s : SimState) :
    (process_estop_delay c b s).pins.stop = (process_estop_delay c b s).pins.estop := by
  unfold process_estop_delay
  split_ifs <;> simp [update_stop_pin_state, chanPair_eta]

theorem process_interlock_delay_pins (c : Char) (b : Bool) (s : SimState) :
    (process_interlock_delay c b s).pins.stop = s.pins.stop ∧
    (process_interlock_delay c b s).pins.estop = s.pins.estop := by
  unfold process_interlock_delay
  split_ifs <;> simp

theorem simWrite_inv (data : List Char) (now : Int) (s : SimState)
    (h : s.pins.stop = s.pins.estop) :
    (stateOf (simWrite data now s)).pins.stop =
      (stateOf (simWrite data now s)).pins.estop := by
  unfold simWrite
  by_cases ho : s.isOpen = false
  · simp [ho, stateOf]
    exact h
  · rcases hg : pyGet (pyStrip data) 0 with _ | c
    · simp [ho, hg, stateOf]
      exact h
    · by_cases hR : c = 'R'
      · simp [ho, hg, hR, stateOf]
        exact h
      · by_cases hH : c = 'H'
        · simp [ho, hg, hR, hH, stateOf]
          exact h
        · by_cases hM : c = 'M'
          · simp only [ho, hg, hR, hH, hM, if_false, if_true, Option.some.injEq, if_neg,
              expectOkAfter_pins]
            simp [expectOkAfter_pins, (set_mode_pins data s).1, (set_mode_pins data s).2]
            exact h
          · by_cases hE : c = 'E'
            · simp [ho, hg, hR, hH, hM, hE, expectOkAfter_pins]
              exact set_estop_inv data now s h
            · by_cases hI : c = 'I'
              · simp [ho, hg, hR, hH, hM, hE, hI, expectOkAfter_pins,
                  (set_interlock_pins data now s).1, (set_interlock_pins data now s).2]
                exact h
              · by_cases hP : c = 'P'
                · simp [ho, hg, hR, hH, hM, hE, hI, hP, expectOkAfter_pins,
                    (set_power_pins data s).1, (set_power_pins data s).2]
                  exact h
                · by_cases hS : c = 'S'
                  · simp [ho, hg, hR, hH, hM, hE, hI, hP, hS, stateOf]
                    exact h
                  · simp [ho, hg, hR, hH, hM, hE, hI, hP, hS, stateOf]
                    exact h

theorem simRead_inv (rnd : ChanPair) (hb : Nat × Nat) (stdin : List Char) (s : SimState)
    (h : s.pins.stop = s.pins.estop) :
    (readStateOf (simRead rnd hb stdin s)).pins.stop =
      (readStateOf (simRead rnd hb stdin s)).pins.estop := by
  unfold simRead
  split_ifs <;> simp [readStateOf] <;> exact h

theorem fireTimer_inv (s : SimState) (i : Nat) (h : s.pins.stop = s.pins.estop) :
    (fireTimer s i).pins.stop = (fireTimer s i).pins.estop := by
  unfold fireTimer
  rcases hg : s.timers.get? i with _ | t
  · simp [hg]
    exact h
  · simp only [hg]
    cases ht : t.sig <;> simp only [applyTimer, ht]
    · exact process_estop_delay_inv _ _ _
    · rw [(process_interlock_delay_pins _ _ _).1, (process_interlock_delay_pins _ _ _).2]
      exact h

/-- C1. In every reachable simulator state — after any command (including
the error paths of malformed ones), any served read, any delayed
transition callback, and any open/close — `stop` equals `estop` on both
channels; no command ever writes `stop` except through the
`stop := estop` derivation. -/
theorem C1_stop_always_equals_estop (s : SimState) (h : Reachable s) :
    s.pins.stop.a = s.pins.estop.a ∧ s.pins.stop.b = s.pins.estop.b := by
  have main : s.pins.stop = s.pins.estop := by
    induction h with
    | init => rfl
    | step hr hstep ih =>
      cases hstep with
      | writeData data now hcl => exact simWrite_inv data now _ ih
      | readData rnd hb stdin now hcl hb1 hb2 hb3 hb4 => exact simRead_inv rnd hb stdin _ ih
      | fire i now hfa => exact fireTimer_inv _ i ih
      | openPort => exact ih
      | closePort => exact ih
  exact ⟨congrArg ChanPair.a main, congrArg ChanPair.b main⟩

/-- Witness for C1 at a concrete reachable state: the initial state after
opening the port and processing the immediate command `E01`. -/
theorem C1_stop_always_equals_estop_witness :
    (withClock (stateOf (simWrite ['E', '0', '1'] 0
        { initState with isOpen := true })) 0).pins.stop.a =
      (withClock (stateOf (simWrite ['E', '0', '1'] 0
        { initState with isOpen := true })) 0).pins.estop.a ∧
    (withClock (stateOf (simWrite ['E', '0', '1'] 0
        { initState with isOpen := true })) 0).pins.stop.b =
      (withClock (stateOf (simWrite ['E', '0', '1'] 0
        { initState with isOpen := true })) 0).pins.estop.b :=
  C1_stop_always_equals_estop _
    (Reachable.step (Reachable.step Reachable.init (Step.openPort initState))
      (Step.writeData _ ['E', '0', '1'] 0 (by decide)))

end SafetyTester
